import Mathlib

/-!
# Kjer security framework — verification of the scan / defend engine

Shallow embedding of the renderer logic in `src/desktop/main.js`
(the Electron renderer script concatenated after the main-process IPC
handlers).  The embedding models:

* `localStorage` as an association list of string keys and values
  (`Store`), with `getItem` / `setItem` mirroring the DOM API calls;
* the static tool catalog `TOOLS_DATABASE` (object-literal declaration
  order preserved; only the fields the verified logic reads are kept:
  the object key, `name`, and the — absent — `id` field);
* the role registry `TOOL_ROLES`;
* the scan engine `performComprehensiveScan` as an ordered list of
  scheduled units (the `setTimeout` offsets in the source are strictly
  increasing in construction order, so execution order equals
  construction order) folded over an explicit state;
* the defend engine `activateSmartDefense` (action counting, phase
  triggers and the posture computation; the randomised log text is
  irrelevant to every property and is not modelled);
* the state-gate fragments: `initializeKjer`, `activateKjer`, the
  `read-install-state` IPC handler, and `setToolInstalled`.

Machine randomness in `_runToolScan` is abstracted as the pluggable
probe `ToolProbe` returning the `(level, message, flagged)` triple the
`switch` statement produces; the scan itself builds the finding record
`{ phase, tool: name, key, level, message }` exactly as line 3298 of
the source does.
-/

set_option maxRecDepth 10000

namespace Kjer

/-- Severity levels used by the scan / defend engine (the string
literals "info", "success", "warning", "error", "critical" in the
source). -/
inductive Level where
  | info
  | success
  | warning
  | error
  | critical
deriving DecidableEq, Repr

/-- Model of `localStorage` as an association list; the most recent
`setItem` for a key shadows older entries. -/
abbrev Store := List (String × String)

/-- Read `localStorage.getItem(k)` — first binding of `k`, if any. -/
def getItem : Store → String → Option String
  | [], _ => none
  | (k', v) :: rest, k => if k' = k then some v else getItem rest k

/-- Write `localStorage.setItem(k, v)`. -/
def setItem (s : Store) (k v : String) : Store := (k, v) :: s

/-- One catalog entry of `TOOLS_DATABASE` (src/desktop/main.js:1004-1425).
Each source entry defines `name, category, icon, description,
detailedDescription, status, version, url, osCompatibility,
compatibilityScore, dependencies, size_mb, priority` — and **no** `id`
field.  Only the object key, `name` and the absent `id` are read by the
scan/defend logic, so only those are kept; `id : Option String := none`
records that accessing `tool.id` yields `undefined`. -/
structure Tool where
  key  : String
  name : String
  id   : Option String := none
deriving DecidableEq, Repr

/-- The catalog `TOOLS_DATABASE` — the 28 entries in declaration order. -/
def TOOLS_DATABASE : List Tool :=
  [ ⟨"windows-defender", "Windows Defender", none⟩
  , ⟨"malwarebytes", "Malwarebytes", none⟩
  , ⟨"kaspersky", "Kaspersky Endpoint Security", none⟩
  , ⟨"wireshark", "Wireshark", none⟩
  , ⟨"suricata", "Suricata", none⟩
  , ⟨"zeek", "Zeek (Bro)", none⟩
  , ⟨"ghidra", "Ghidra", none⟩
  , ⟨"ida-pro", "IDA Pro", none⟩
  , ⟨"volatility", "Volatility", none⟩
  , ⟨"splunk", "Splunk Enterprise", none⟩
  , ⟨"elastic-stack", "Elastic Stack (ELK)", none⟩
  , ⟨"nessus", "Nessus Professional", none⟩
  , ⟨"openvas", "OpenVAS", none⟩
  , ⟨"cis-cat", "CIS-CAT Pro", none⟩
  , ⟨"osquery", "OSQuery", none⟩
  , ⟨"gvm", "GVM", none⟩
  , ⟨"fail2ban", "Fail2ban", none⟩
  , ⟨"lynis", "Lynis", none⟩
  , ⟨"aide", "AIDE", none⟩
  , ⟨"chkrootkit", "Chkrootkit", none⟩
  , ⟨"rkhunter", "Rkhunter", none⟩
  , ⟨"clamav", "ClamAV", none⟩
  , ⟨"tiger", "TIGER", none⟩
  , ⟨"tripwire", "Tripwire", none⟩
  , ⟨"apparmor", "AppArmor", none⟩
  , ⟨"selinux", "SELinux", none⟩
  , ⟨"ufw", "UFW", none⟩
  , ⟨"auditd", "Auditd", none⟩ ]

/-- The registry `TOOL_ROLES` (src/desktop/main.js:2823-2836) — role tag to the
catalog keys holding that role. -/
def TOOL_ROLES : List (String × List String) :=
  [ ("network_scan",    ["wireshark", "suricata", "zeek"])
  , ("vuln_scan",       ["nessus", "openvas", "gvm"])
  , ("malware_scan",    ["clamav", "rkhunter", "chkrootkit", "malwarebytes",
                         "windows-defender", "kaspersky"])
  , ("integrity_scan",  ["aide", "tripwire"])
  , ("memory_scan",     ["volatility"])
  , ("compliance_scan", ["lynis", "cis-cat", "osquery", "auditd", "tiger"])
  , ("siem",            ["splunk", "elastic-stack"])
  , ("firewall",        ["ufw", "apparmor", "selinux"])
  , ("ips",             ["suricata", "fail2ban"])
  , ("av_remediate",    ["clamav", "malwarebytes", "windows-defender",
                         "kaspersky", "rkhunter", "chkrootkit"]) ]

/-- Lookup `TOOL_ROLES[r] || []`. -/
def roleKeysOf (role : String) : List String :=
  match TOOL_ROLES.find? (fun p => p.1 = role) with
  | some p => p.2
  | none => []

/-- JavaScript string interpolation of an absent property renders as
`"undefined"`; this is the `tool_${tool.id}_installed` key construction
of the `getInstalledTools` declaration at src/desktop/main.js:4281. -/
def idString : Option String → String
  | none => "undefined"
  | some s => s

/-- The `localStorage` key consulted for the install marker of a tool. -/
def installedStorageKey (t : Tool) : String :=
  "tool_" ++ idString t.id ++ "_installed"

/-- The function `getInstalledTools` — the **second** declaration
(src/desktop/main.js:4281-4291), which under JavaScript function-
declaration hoisting shadows the earlier declaration at line 3803 and
is therefore the one every caller (scan, defend, install) actually
invokes.  Returns the `name`s of the tools whose marker key holds
the value "true" (the source returns an object mapping each such name to true; its key
list, in catalog order, is what every consumer reads). -/
def getInstalledTools (s : Store) : List String :=
  (TOOLS_DATABASE.filter
    (fun t => getItem s (installedStorageKey t) = some "true")).map (·.name)

/-- Stand-in for `JSON.stringify` of the installed-tools map written by
`setToolInstalled`; the serialised text is never read back by the
`getInstalledTools` declaration in effect, so only the target key
matters to every verified property. -/
def encodeInstalled (names : List String) : String :=
  String.intercalate "," names

/-- Write path `setToolInstalled(toolName, isInstalled)`
(src/desktop/main.js:3808-3816): reads the current installed map via
`getInstalledTools()` (the declaration in effect), adds or deletes
`toolName`, and serialises the result under the **separate**
`localStorage` key "installedTools". -/
def setToolInstalled (s : Store) (toolName : String) (isInstalled : Bool) :
    Store :=
  let installed := getInstalledTools s
  let updated :=
    if isInstalled then
      if toolName ∈ installed then installed else installed ++ [toolName]
    else installed.erase toolName
  setItem s "installedTools" (encodeInstalled updated)

/-- Core of `getToolsByRole(roleKeys)` (src/desktop/main.js:2839-2849),
factored over the list of installed tool names that the source obtains
by calling `getInstalledTools()`: the installed catalog entries, in
catalog declaration order, whose key is wanted by one of the requested
roles. -/
def getToolsByRoleOf (roles : List String) (installed : List String) :
    List Tool :=
  let wanted := roles.flatMap roleKeysOf
  TOOLS_DATABASE.filter (fun t => t.name ∈ installed ∧ t.key ∈ wanted)

/-- The source `getToolsByRole(roleKeys)` as called with the live `localStorage`. -/
def getToolsByRole (roles : List String) (s : Store) : List Tool :=
  getToolsByRoleOf roles (getInstalledTools s)

/-! ## Scan engine (`performComprehensiveScan`, src/desktop/main.js:2866-2983) -/

/-- A finding as constructed at src/desktop/main.js:3298:
`{ phase, tool: name, key: tool.key, level, message: line }`.
Note that the constructed record has **no** `flagged` property. -/
structure Finding where
  phase   : String
  tool    : String
  key     : String
  level   : Level
  message : String
deriving DecidableEq, Repr

/-- Reading the absent `flagged` property of a finding record
(`finding.flagged` at src/desktop/main.js:2936) yields `undefined`,
which is falsy. -/
def Finding.flaggedProp (_ : Finding) : Bool := false

/-- The `results` object of a scan (src/desktop/main.js:2896-2904 plus
the `completedAt` stamp added at line 2947). -/
structure ScanResult where
  startedAt   : Nat
  findings    : List Finding
  critical    : Nat
  high        : Nat
  medium      : Nat
  low         : Nat
  toolsRun    : Nat
  completedAt : Option Nat
deriving DecidableEq, Repr

/-- The outcome of the per-tool simulation switch in `_runToolScan`
(src/desktop/main.js:2989-3295): a severity, the log line, and whether
the probe flags its finding.  The in-repo switch draws these from
`Math.random()`; the engine treats it as a pluggable probe. -/
structure ProbeOutcome where
  level   : Level
  message : String
  flagged : Bool

/-- A deterministic probe implementation: one outcome per tool. -/
abbrev ToolProbe := Tool → ProbeOutcome

/-- The probe wrapper `_runToolScan(tool, phase)` — returns a finding record exactly when
the probe outcome is flagged (src/desktop/main.js:3298). -/
def _runToolScan (probe : ToolProbe) (t : Tool) (phase : String) :
    Option Finding :=
  let o := probe t
  if o.flagged then
    some { phase := phase, tool := t.name, key := t.key,
           level := o.level, message := o.message }
  else none

/-- The body of the per-probe `setTimeout` callback
(src/desktop/main.js:2929-2937): `toolsRun` always increments; a
non-null finding is appended and bucketed.  The low bucket requires
`finding.level === "info" && finding.flagged`, and the record has no
`flagged` property (see `Finding.flaggedProp`). -/
def recordProbe (r : ScanResult) (f? : Option Finding) : ScanResult :=
  let r := { r with toolsRun := r.toolsRun + 1 }
  match f? with
  | none => r
  | some f =>
    { r with
      findings := r.findings ++ [f]
      critical := r.critical + (if f.level = .critical then 1 else 0)
      high     := r.high + (if f.level = .error then 1 else 0)
      medium   := r.medium + (if f.level = .warning then 1 else 0)
      low      := r.low +
        (if f.level = .info ∧ f.flaggedProp then 1 else 0) }

/-- The seven scan phases in declared order with their role queries
(src/desktop/main.js:2877-2885). -/
def scanPhasesOf (installed : List String) : List (String × List Tool) :=
  [ ("NETWORK ANALYSIS",   getToolsByRoleOf ["network_scan"] installed)
  , ("VULNERABILITY SCAN", getToolsByRoleOf ["vuln_scan"] installed)
  , ("MALWARE & EDR",      getToolsByRoleOf ["malware_scan"] installed)
  , ("FILE INTEGRITY",     getToolsByRoleOf ["integrity_scan"] installed)
  , ("MEMORY FORENSICS",   getToolsByRoleOf ["memory_scan"] installed)
  , ("COMPLIANCE & AUDIT", getToolsByRoleOf ["compliance_scan"] installed)
  , ("SIEM & LOG INGEST",  getToolsByRoleOf ["siem"] installed) ]

/-- The `activePhases` list — phases with at least one tool
(src/desktop/main.js:2887). -/
def activePhasesOf (installed : List String) : List (String × List Tool) :=
  (scanPhasesOf installed).filter (fun p => 0 < p.2.length)

/-- The probe dispatch units of a scan, in schedule order: phases in
declared order, tools within a phase in catalog order. -/
def scanDispatchOf (installed : List String) : List (String × Tool) :=
  (activePhasesOf installed).flatMap (fun p => p.2.map (fun t => (p.1, t)))

/-- One scheduled `setTimeout` unit of the scan.  The delay offsets in
the source (`globalDelay`, src/desktop/main.js:2919-2943) are strictly
increasing in construction order — section header, then each probe of
the phase, phase after phase, and finally the summary callback at
`globalDelay + 400` — so the timer queue runs the units exactly in the
order this list is built. -/
inductive ScanEvent where
  | sectionHeader (phase : String)
  | probeUnit (phase : String) (t : Tool)
  | summary (t1 : Nat)
deriving DecidableEq, Repr

/-- The scheduled units of a scan, in execution order. -/
def scanEventsOf (installed : List String) (t1 : Nat) : List ScanEvent :=
  ((activePhasesOf installed).flatMap (fun p =>
      ScanEvent.sectionHeader p.1 :: p.2.map (ScanEvent.probeUnit p.1)))
    ++ [ScanEvent.summary t1]

/-- The mutable state threaded through the scheduled units: the local
`results` object and the shared slot `window.KjerLastScanResults`. -/
structure ScanExec where
  results         : ScanResult
  lastScanResults : Option ScanResult
deriving DecidableEq, Repr

/-- Effect of one scheduled unit.  Section headers only log; a probe
unit mutates `results` (src/desktop/main.js:2928-2938); the summary
callback stamps `completedAt` and publishes the finished object to
`window.KjerLastScanResults` (src/desktop/main.js:2946-2948). -/
def scanStep (probe : ToolProbe) (e : ScanExec) : ScanEvent → ScanExec
  | .sectionHeader _ => e
  | .probeUnit ph t =>
      { e with results := recordProbe e.results (_runToolScan probe t ph) }
  | .summary t1 =>
      let r := { e.results with completedAt := some t1 }
      { results := r, lastScanResults := some r }

/-- The sequence of states reachable after each scheduled unit. -/
def execTrace (probe : ToolProbe) (e : ScanExec) :
    List ScanEvent → List ScanExec
  | [] => []
  | ev :: rest =>
      let e2 := scanStep probe e ev
      e2 :: execTrace probe e2 rest

/-- The execution state right after the synchronous body of
`performComprehensiveScan` returns: a fresh `results` object
(line 2896) and the shared slot cleared to null (line 2905). -/
def initialScanExec (t0 : Nat) : ScanExec :=
  { results := { startedAt := t0, findings := [], critical := 0, high := 0,
                 medium := 0, low := 0, toolsRun := 0, completedAt := none }
    lastScanResults := none }

/-- Result of invoking the scan. -/
inductive ScanOutcome where
  | noTools
  | noCapability
  | completed (r : ScanResult)
deriving DecidableEq, Repr

/-- The scan `performComprehensiveScan()` factored over the installed names:
the two abort guards (src/desktop/main.js:2870-2893) and, otherwise,
the final `results` object produced once every scheduled unit has run. -/
def performComprehensiveScanOf (installed : List String)
    (probe : ToolProbe) (t0 t1 : Nat) : ScanOutcome :=
  if installed.length = 0 then .noTools
  else if (activePhasesOf installed).length = 0 then .noCapability
  else
    .completed
      (((scanEventsOf installed t1).foldl (scanStep probe)
          (initialScanExec t0)).results)

/-- The scan `performComprehensiveScan()` on the live `localStorage`. -/
def performComprehensiveScan (s : Store) (probe : ToolProbe)
    (t0 t1 : Nat) : ScanOutcome :=
  performComprehensiveScanOf (getInstalledTools s) probe t0 t1

/-- Every value of `window.KjerLastScanResults` observable around a call
of `performComprehensiveScan`, in order: the value before the call
(`prev`), then — unless an abort guard returned first, which leaves the
slot untouched — the value after the synchronous body (cleared at
line 2905) followed by the value after each scheduled unit. -/
def resultStoreTrace (prev : Option ScanResult) (s : Store)
    (probe : ToolProbe) (t0 t1 : Nat) : List (Option ScanResult) :=
  let installed := getInstalledTools s
  if installed.length = 0 then [prev]
  else if (activePhasesOf installed).length = 0 then [prev]
  else
    prev :: (initialScanExec t0).lastScanResults ::
      (execTrace probe (initialScanExec t0)
        (scanEventsOf installed t1)).map (·.lastScanResults)

/-! ## Defend engine (`activateSmartDefense`, src/desktop/main.js:3305-3607) -/

/-- Truthiness check `hasScanData = scanResults && scanResults.completedAt`
(src/desktop/main.js:3316). -/
def hasScanDataOf : Option ScanResult → Bool
  | some r => r.completedAt.isSome
  | none => false

/-- Selection `const findings = hasScanData ? scanResults.findings : []`
(src/desktop/main.js:3340). -/
def findingsUsed : Option ScanResult → List Finding
  | some r => if r.completedAt.isSome then r.findings else []
  | none => []

/-- Threat-context predicates over the scan findings
(src/desktop/main.js:3341-3354); each uses the hard-coded key list and
severity list of the source. -/
def hasNetworkThreat (findings : List Finding) : Bool :=
  findings.any (fun f => ["wireshark", "suricata", "zeek"].contains f.key
    && [Level.critical, Level.error, Level.warning].contains f.level)

/-- Predicate `hasMalware` (src/desktop/main.js:3343-3345). -/
def hasMalware (findings : List Finding) : Bool :=
  findings.any (fun f =>
    ["clamav", "rkhunter", "chkrootkit", "malwarebytes",
     "windows-defender", "kaspersky"].contains f.key
    && [Level.critical, Level.error].contains f.level)

/-- Predicate `hasIntegrityViolation` (src/desktop/main.js:3346-3347). -/
def hasIntegrityViolation (findings : List Finding) : Bool :=
  findings.any (fun f => ["aide", "tripwire"].contains f.key
    && [Level.critical, Level.warning].contains f.level)

/-- Predicate `hasComplianceGap` (src/desktop/main.js:3348-3350). -/
def hasComplianceGap (findings : List Finding) : Bool :=
  findings.any (fun f =>
    ["lynis", "cis-cat", "osquery", "auditd", "tiger"].contains f.key
    && [Level.critical, Level.error, Level.warning].contains f.level)

/-- Predicate `hasMemoryThreat` (src/desktop/main.js:3351-3352) — note the
severity list is critical **or warning**, not error. -/
def hasMemoryThreat (findings : List Finding) : Bool :=
  findings.any (fun f => f.key == "volatility"
    && [Level.critical, Level.warning].contains f.level)

/-- Predicate `hasVulns` (src/desktop/main.js:3353-3354). -/
def hasVulns (findings : List Finding) : Bool :=
  findings.any (fun f => ["nessus", "openvas", "gvm"].contains f.key
    && [Level.critical, Level.error, Level.warning].contains f.level)

/-- Phase-1 tool set (src/desktop/main.js:3363-3364). -/
def networkDefendersOf (installed : List String) : List Tool :=
  (getToolsByRoleOf ["firewall", "ips"] installed).filter
    (fun t => ["ufw", "fail2ban", "suricata"].contains t.key)

/-- Phase-2 tool set (src/desktop/main.js:3404). -/
def avToolsOf (installed : List String) : List Tool :=
  getToolsByRoleOf ["av_remediate"] installed

/-- Phase-3 tool set (src/desktop/main.js:3462). -/
def macToolsOf (installed : List String) : List Tool :=
  (getToolsByRoleOf ["firewall"] installed).filter
    (fun t => ["apparmor", "selinux"].contains t.key)

/-- Phase-4 tool set (src/desktop/main.js:3497). -/
def integrityToolsOf (installed : List String) : List Tool :=
  getToolsByRoleOf ["integrity_scan"] installed

/-- Phase-5 tool set (src/desktop/main.js:3523-3524). -/
def complianceDefendersOf (installed : List String) : List Tool :=
  (getToolsByRoleOf ["compliance_scan"] installed).filter
    (fun t => ["lynis", "auditd"].contains t.key)

/-- Phase-6 tool set (src/desktop/main.js:3555). -/
def siemToolsOf (installed : List String) : List Tool :=
  getToolsByRoleOf ["siem"] installed

/-- One defense phase: its section-header name, its tool set, and its
gating condition as evaluated by the source. -/
structure DefensePhase where
  name    : String
  tools   : List Tool
  engaged : Bool
deriving DecidableEq, Repr

/-- The six defense phases in declared order with the exact gating
conditions of src/desktop/main.js (lines 3366, 3406, 3464, 3499, 3526,
3557).  `broadMode = !hasScanData` (line 3357). -/
def defensePhasesOf (installed : List String)
    (scanResults : Option ScanResult) : List DefensePhase :=
  let hasScanData := hasScanDataOf scanResults
  let findings := findingsUsed scanResults
  let broadMode := !hasScanData
  [ { name := "PHASE 1 — NETWORK & PERIMETER"
      tools := networkDefendersOf installed
      engaged := decide (0 < (networkDefendersOf installed).length)
        && (broadMode || hasNetworkThreat findings || hasVulns findings) }
  , { name := "PHASE 2 — MALWARE CONTAINMENT"
      tools := avToolsOf installed
      engaged := decide (0 < (avToolsOf installed).length)
        && (broadMode || hasMalware findings || hasMemoryThreat findings) }
  , { name := "PHASE 3 — ACCESS CONTROL ENFORCEMENT"
      tools := macToolsOf installed
      engaged := decide (0 < (macToolsOf installed).length)
        && (broadMode || hasComplianceGap findings || hasMalware findings) }
  , { name := "PHASE 4 — FILE INTEGRITY"
      tools := integrityToolsOf installed
      engaged := decide (0 < (integrityToolsOf installed).length)
        && (broadMode || hasIntegrityViolation findings) }
  , { name := "PHASE 5 — AUDIT HARDENING"
      tools := complianceDefendersOf installed
      engaged := decide (0 < (complianceDefendersOf installed).length)
        && (broadMode || hasComplianceGap findings) }
  , { name := "PHASE 6 — SIEM ALERT RULES"
      tools := siemToolsOf installed
      engaged := decide (0 < (siemToolsOf installed).length)
        && (broadMode || decide (0 < findings.length)) } ]

/-- Result of a defend run: `actionsTotal`, the engaged phase headers,
and the computed posture string.  Every `switch` case of every engaged
phase performs exactly one `actionsTotal++` per dispatched tool (each
phase filters its tool list to exactly the keys its `switch` handles),
so `actionsTotal` is the total tool count of the engaged phases. -/
structure DefenseSummary where
  actionsTotal  : Nat
  engagedPhases : List String
  posture       : String
deriving DecidableEq, Repr

/-- Outcome of `activateSmartDefense`. -/
inductive DefendOutcome where
  | noToolsInstalled
  | ran (summary : DefenseSummary)
deriving DecidableEq, Repr

/-- The defend run `activateSmartDefense()` factored over the installed names: the
no-tools abort (src/desktop/main.js:3309-3313), the six staggered
defense phases, and the summary callback computing the posture
(src/desktop/main.js:3577-3584). -/
def activateSmartDefenseOf (installed : List String)
    (scanResults : Option ScanResult) : DefendOutcome :=
  if installed.length = 0 then .noToolsInstalled
  else
    let hasScanData := hasScanDataOf scanResults
    let findings := findingsUsed scanResults
    let engaged := (defensePhasesOf installed scanResults).filter (·.engaged)
    let actionsTotal : Nat := (engaged.map (fun p => p.tools.length)).sum
    let criticalInScan :=
      match scanResults with
      | some r => decide (0 < r.critical)
      | none => false
    let posture :=
      if actionsTotal = 0 then "NO DEFENSIVE TOOLS INSTALLED"
      else if findings.length = 0 then "HARDENED (preventive)"
      else if hasScanData && criticalInScan then "INCIDENT RESPONSE ACTIVE"
      else "HARDENED"
    .ran { actionsTotal := actionsTotal
           engagedPhases := engaged.map (·.name)
           posture := posture }

/-- The defend run `activateSmartDefense()` on the live `localStorage` and the shared
`window.KjerLastScanResults` slot. -/
def activateSmartDefense (s : Store) (lastScanResults : Option ScanResult) :
    DefendOutcome :=
  activateSmartDefenseOf (getInstalledTools s) lastScanResults

/-! ## Tool install / uninstall (src/desktop/main.js:3942-3980) -/

/-- Response of the external install/uninstall executor
(`BackendAPI.installTool` / `BackendAPI.uninstallTool`), a black-box
collaborator of this core. -/
structure BackendResult where
  success : Bool
  message : String := ""
deriving DecidableEq, Repr

/-- The handler `installTool(toolName)` (src/desktop/main.js:3942-3980): toggles —
if `toolName in installed` it uninstalls, else installs; on backend
success it records the outcome via `setToolInstalled`.  Notifications
and log lines are one-way sink events.  The function performs **no**
initialization check. -/
def installTool (s : Store) (toolName : String) (result : BackendResult) :
    Store :=
  let installed := getInstalledTools s
  if toolName ∈ installed then
    if result.success then setToolInstalled s toolName false else s
  else
    if result.success then setToolInstalled s toolName true else s

/-- UI gate `const isButtonDisabled = tool.isIncompatible || !isInitialized`
(src/desktop/main.js:3683) — the GUI-layer install gate: the install
button of a tool card is rendered disabled when Kjer is not
initialized. -/
def createToolCardButtonDisabled (isIncompatible isInitialized : Bool) :
    Bool :=
  isIncompatible || !isInitialized

/-! ## State gate: initialization / activation
(src/desktop/main.js:474-537 and 808-876) -/

/-- The transition `initializeKjer()` — `localStorage` effects of the success path
(src/desktop/main.js:480-490): marks `kterInitialized`, records the
initialization date, and persists `userOS` when absent.  The remaining
steps (writing the on-disk `initialized` flag, dashboard refresh, tool
sync, CLI wiring) act on external collaborators.  `detectedOS` stands
for `SystemInfo.detectOS()` and `nowIso` for `new Date().toISOString()`. -/
def initializeKjer (s : Store) (detectedOS nowIso : String) : Store :=
  let installedOS := (getItem s "userOS").getD detectedOS
  let s1 := setItem s "kterInitialized" "true"
  let s2 := setItem s1 "initializationDate" nowIso
  if (getItem s2 "userOS").isNone then setItem s2 "userOS" installedOS
  else s2

/-- Model of `String.prototype.toUpperCase()` (character-wise upper
casing, executable in the kernel). -/
def jsToUpper (s : String) : String := (s.toList.map Char.toUpper).asString

/-- Model of `String.prototype.toLowerCase()`. -/
def jsToLower (s : String) : String := (s.toList.map Char.toLower).asString

/-- Model of `String.prototype.trim()`: strip leading and trailing
whitespace. -/
def jsTrim (s : String) : String :=
  ((s.toList.dropWhile Char.isWhitespace).reverse.dropWhile
    Char.isWhitespace).reverse.asString

/-- Model of `String.prototype.includes(pat)`. -/
def jsIncludes (s pat : String) : Prop := List.IsInfix pat.toList s.toList

instance (s pat : String) : Decidable (jsIncludes s pat) := by
  unfold jsIncludes; infer_instance

/-- Response of the external license authority
(`BackendAPI.activateLicense`); `license_version` / `version` are the
fields the renderer consults at src/desktop/main.js:839. -/
structure ActivationResult where
  success         : Bool
  license_version : Option String := none
  version         : Option String := none
  message         : String := ""
deriving DecidableEq, Repr

/-- What `activateKjer` leaves pending when it returns: the inline
upgrade-reinit prompt (src/desktop/main.js:848-864), the scheduled
`setTimeout(initializeKjer, 1500)` of the fresh-activation branch
(lines 868-871), a failure message, or the invalid-format early
return. -/
inductive ActivationOutcome where
  | invalidFormat
  | failed (message : String)
  | upgradePrompt (newVersion : String)
  | scheduledInitialize
deriving DecidableEq, Repr

/-- The transition `activateKjer()` (src/desktop/main.js:808-876).  `input` is the
license-key field text; `validate` is the external license authority.
On success the key, type and activated marker are persisted (the
`saveLicenseKeyToDisk` call is an external disk write).  The function
itself never writes `kterInitialized`; the fresh-activation branch
only *schedules* the separate `initializeKjer()` transition. -/
def activateKjer (s : Store) (input : String)
    (validate : String → String → ActivationResult) :
    Store × ActivationOutcome :=
  let licenseKey := jsToUpper (jsTrim input)
  let keyLower := jsToLower licenseKey
  let licenseType :=
    if jsIncludes keyLower "ent" then "enterprise"
    else if jsIncludes keyLower "pro" then "professional"
    else (getItem s "kterLicenseType").getD "personal"
  if licenseKey.length ≠ 24 then (s, .invalidFormat)
  else
    let result := validate licenseKey licenseType
    if result.success then
      let s1 := setItem s "kterLicenseKey" licenseKey
      let s2 := setItem s1 "kterLicenseType" licenseType
      let s3 := setItem s2 "kterActivated" "true"
      let newVersion := result.license_version <|> result.version
      let currentVersion := (getItem s3 "kterVersion").getD "1.0.0"
      let isInitialized := getItem s3 "kterInitialized" == some "true"
      match newVersion with
      | some v =>
        if v ≠ currentVersion ∧ isInitialized then
          (setItem s3 "kterVersion" v, .upgradePrompt v)
        else (setItem s3 "kterVersion" v, .scheduledInitialize)
      | none => (s3, .scheduledInitialize)
    else (s, .failed result.message)

/-! ## `read-install-state` IPC handler (src/desktop/main.js:54-68) -/

/-- Parsed content of `~/.kjer/install_state.json`; the `initialized`
field is overwritten by the handler with the on-disk flag check
(JavaScript spread `{ ...JSON.parse(raw), initialized }`). -/
structure InstallState where
  os           : Option String := none
  distro       : Option String := none
  installed_at : Option String := none
  initialized  : Bool := false
deriving DecidableEq, Repr

/-- The filesystem state the handler consults: the install-state file
(`none` when absent **or** unparsable — either way `fs.readFileSync` /
`JSON.parse` throws into the catch branch) and the existence of the
`~/.kjer/initialized` flag file. -/
structure KjerFS where
  installStateFile : Option InstallState
  initFlagExists   : Bool
deriving DecidableEq, Repr

/-- The IPC reply `{ success, state }`; `state = null` in the
pre-install catch branch.  The handler never throws: the catch makes
the read fail soft. -/
structure ReadInstallStateResult where
  success : Bool
  state   : Option InstallState
deriving DecidableEq, Repr

/-- The `read-install-state` handler (src/desktop/main.js:56-68). -/
def readInstallState (fs : KjerFS) : ReadInstallStateResult :=
  let initialized := fs.initFlagExists
  match fs.installStateFile with
  | some st => { success := true
                 state := some { st with initialized := initialized } }
  | none =>
      { success := initialized
        state := if initialized then
                   some { os := none, distro := none, installed_at := none,
                          initialized := true }
                 else none }

/-- The initialized flag a consumer of the reply observes
(`result.state.initialized`, with a null state read as uninitialized —
this is how `loadInstallStateIntoApp`, src/desktop/main.js:257-278,
treats the reply). -/
def ReadInstallStateResult.initializedFlag (r : ReadInstallStateResult) :
    Bool :=
  match r.state with
  | some st => st.initialized
  | none => false

/-! ## Classifiers and ordering ranks used by the statements -/

/-- Is an event a probe-dispatch unit? -/
def ScanEvent.isProbe : ScanEvent → Bool
  | .probeUnit _ _ => true
  | _ => false

/-- Is an event the summary unit? -/
def ScanEvent.isSummary : ScanEvent → Bool
  | .summary _ => true
  | _ => false

/-- The finding an event contributes (none for section headers, the
summary, and unflagged probes). -/
def ScanEvent.probeResult (probe : ToolProbe) : ScanEvent → Option Finding
  | .probeUnit ph t => _runToolScan probe t ph
  | _ => none

/-- The declared scan phase names, in declared order. -/
def scanPhaseNames : List String :=
  ["NETWORK ANALYSIS", "VULNERABILITY SCAN", "MALWARE & EDR",
   "FILE INTEGRITY", "MEMORY FORENSICS", "COMPLIANCE & AUDIT",
   "SIEM & LOG INGEST"]

/-- Position of a phase in the declared phase order. -/
def phaseIndexOf (ph : String) : Nat := scanPhaseNames.indexOf ph

/-- Position of a tool key in the catalog declaration order. -/
def catalogIndexOf (k : String) : Nat :=
  (TOOLS_DATABASE.map (·.key)).indexOf k

/-- Strict schedule order on dispatch units: earlier phase, or same
phase and earlier catalog position. -/
def unitOrder (u v : String × Tool) : Prop :=
  phaseIndexOf u.1 < phaseIndexOf v.1 ∨
    (phaseIndexOf u.1 = phaseIndexOf v.1 ∧
      catalogIndexOf u.2.key < catalogIndexOf v.2.key)

/-- Strict schedule order on findings: the phase of the first comes
earlier in the declared phase order, or the phases coincide and the
tool of the first comes earlier in the catalog. -/
def findingOrder (f g : Finding) : Prop :=
  phaseIndexOf f.phase < phaseIndexOf g.phase ∨
    (phaseIndexOf f.phase = phaseIndexOf g.phase ∧
      catalogIndexOf f.key < catalogIndexOf g.key)

instance : DecidableRel unitOrder := fun u v => by
  unfold unitOrder; infer_instance

instance : DecidableRel findingOrder := fun f g => by
  unfold findingOrder; infer_instance

/-- Convenience accessor: is the Malware Containment phase (phase 2)
engaged by the defend run? -/
def malwareContainmentEngaged (installed : List String)
    (scanResults : Option ScanResult) : Bool :=
  (defensePhasesOf installed scanResults).any
    (fun p => p.name == "PHASE 2 — MALWARE CONTAINMENT" && p.engaged)

/-- Spec-side trigger predicate for Malware Containment, written from
the spec wording — Malware Containment triggers on `malware_scan` /
`memory_scan` findings at severity critical or error — for comparison
with the trigger the code evaluates. -/
def specMalwareContainmentTrigger (findings : List Finding) : Bool :=
  findings.any (fun f =>
    ((roleKeysOf "malware_scan").contains f.key
      || (roleKeysOf "memory_scan").contains f.key)
    && [Level.critical, Level.error].contains f.level)

/-! ## Concrete artefacts used by witnesses and counterexamples -/

/-- A `localStorage` with the single shared install marker set: every
catalog tool reads as installed.  No `kterInitialized` entry is
present, so the state is **not** initialized. -/
def sAllInstalled : Store := [("tool_undefined_installed", "true")]

/-- A deterministic probe stub that flags nothing. -/
def probeQuiet : ToolProbe :=
  fun _ => { level := .success, message := "", flagged := false }

/-- Scenario-B probe stub: ClamAV reports one critical threat, every
other tool reports clean. -/
def probeCriticalClamav : ToolProbe :=
  fun t =>
    if t.key == "clamav" then
      { level := .critical, message := "1 threat", flagged := true }
    else { level := .success, message := "", flagged := false }

/-- A probe stub on which Volatility (role `memory_scan`) reports a
warning-level anomaly — an outcome the in-repo simulation itself can
produce (src/desktop/main.js:3160-3169). -/
def probeWarnVolatility : ToolProbe :=
  fun t =>
    if t.key == "volatility" then
      { level := .warning, message := "2 anomalous processes", flagged := true }
    else { level := .success, message := "", flagged := false }

/-- A probe stub on which ClamAV reports a flagged info-level note. -/
def probeInfoClamav : ToolProbe :=
  fun t =>
    if t.key == "clamav" then
      { level := .info, message := "definitions 3 days old", flagged := true }
    else { level := .success, message := "", flagged := false }

/-- The result of a quiet full scan (all 22 scanner-role tools run, no
finding flagged). -/
def rQuietAll : ScanResult :=
  { startedAt := 0, findings := [], critical := 0, high := 0, medium := 0,
    low := 0, toolsRun := 22, completedAt := some 1 }

/-- Scenario-B scan result: a single critical ClamAV finding. -/
def rScenarioB : ScanResult :=
  { startedAt := 0
    findings := [{ phase := "MALWARE & EDR", tool := "ClamAV",
                   key := "clamav", level := .critical,
                   message := "1 threat" }]
    critical := 1, high := 0, medium := 0, low := 0, toolsRun := 22
    completedAt := some 1 }

/-- Scan result with a single warning-level Volatility finding. -/
def rVolWarn : ScanResult :=
  { startedAt := 0
    findings := [{ phase := "MEMORY FORENSICS", tool := "Volatility",
                   key := "volatility", level := .warning,
                   message := "2 anomalous processes" }]
    critical := 0, high := 0, medium := 1, low := 0, toolsRun := 22
    completedAt := some 1 }

/-- Scan result with a single flagged info-level ClamAV finding. -/
def rInfoClamav : ScanResult :=
  { startedAt := 0
    findings := [{ phase := "MALWARE & EDR", tool := "ClamAV",
                   key := "clamav", level := .info,
                   message := "definitions 3 days old" }]
    critical := 0, high := 0, medium := 0, low := 0, toolsRun := 22
    completedAt := some 1 }

/-- The defense summary produced by a defend run over `rScenarioB` with
every tool installed: phases 2, 3 and 6 engage (6 + 2 + 2 = 10
actions) and the posture is incident response. -/
def summaryScenarioC : DefenseSummary :=
  { actionsTotal := 10
    engagedPhases := ["PHASE 2 — MALWARE CONTAINMENT",
      "PHASE 3 — ACCESS CONTROL ENFORCEMENT", "PHASE 6 — SIEM ALERT RULES"]
    posture := "INCIDENT RESPONSE ACTIVE" }

/-- A distinctive complete previous scan result sitting in the Result
Store before a later scan starts. -/
def rPrevDistinct : ScanResult :=
  { startedAt := 100
    findings := [{ phase := "MALWARE & EDR", tool := "ClamAV",
                   key := "clamav", level := .error,
                   message := "old detection" }]
    critical := 0, high := 1, medium := 0, low := 0, toolsRun := 22
    completedAt := some 101 }

/-! ## Helper lemmas -/

theorem getItem_setItem_self (s : Store) (k v : String) :
    getItem (setItem s k v) k = some v := by
  simp [getItem, setItem]

theorem getItem_setItem_ne (s : Store) (k v k2 : String) (h : k ≠ k2) :
    getItem (setItem s k v) k2 = getItem s k2 := by
  simp [getItem, setItem, h]

/-- Because every catalog entry lacks an `id`, the reader consults the
single key `tool_undefined_installed` for all 28 tools: the installed
set is the whole catalog or nothing. -/
theorem getInstalledTools_eq (s : Store) :
    getInstalledTools s =
      if getItem s "tool_undefined_installed" = some "true" then
        TOOLS_DATABASE.map (·.name)
      else [] := by
  by_cases h : getItem s "tool_undefined_installed" = some "true" <;>
    simp [getInstalledTools, TOOLS_DATABASE, installedStorageKey, idString, h]

theorem getInstalledTools_setItem_ne (s : Store) (k v : String)
    (h : k ≠ "tool_undefined_installed") :
    getInstalledTools (setItem s k v) = getInstalledTools s := by
  rw [getInstalledTools_eq, getInstalledTools_eq,
    getItem_setItem_ne s k v _ h]

/-- The body events of a scan (everything before the summary unit). -/
def scanBodyEventsOf (installed : List String) : List ScanEvent :=
  (activePhasesOf installed).flatMap (fun p =>
    ScanEvent.sectionHeader p.1 :: p.2.map (ScanEvent.probeUnit p.1))

theorem scanEventsOf_eq (installed : List String) (t1 : Nat) :
    scanEventsOf installed t1 =
      scanBodyEventsOf installed ++ [ScanEvent.summary t1] := rfl

theorem scanBodyEventsOf_no_summary (installed : List String) :
    ∀ ev ∈ scanBodyEventsOf installed, ev.isSummary = false := by
  intro ev hev
  simp only [scanBodyEventsOf, List.mem_flatMap, List.mem_cons,
    List.mem_map] at hev
  obtain ⟨p, -, h | ⟨t, -, rfl⟩⟩ := hev
  · subst h; rfl
  · rfl

theorem recordProbe_none (r : ScanResult) :
    recordProbe r none = { r with toolsRun := r.toolsRun + 1 } := rfl

theorem recordProbe_some (r : ScanResult) (f : Finding) :
    recordProbe r (some f) =
      { r with
        findings := r.findings ++ [f]
        toolsRun := r.toolsRun + 1
        critical := r.critical + (if f.level = Level.critical then 1 else 0)
        high := r.high + (if f.level = Level.error then 1 else 0)
        medium := r.medium + (if f.level = Level.warning then 1 else 0) } := by
  simp [recordProbe, Finding.flaggedProp]

theorem foldl_scanStep_no_summary (probe : ToolProbe) :
    ∀ (l : List ScanEvent) (e : ScanExec),
      (∀ ev ∈ l, ev.isSummary = false) →
      (l.foldl (scanStep probe) e).lastScanResults = e.lastScanResults ∧
      (l.foldl (scanStep probe) e).results.startedAt =
        e.results.startedAt ∧
      (l.foldl (scanStep probe) e).results.completedAt =
        e.results.completedAt ∧
      (l.foldl (scanStep probe) e).results.findings =
        e.results.findings ++ l.filterMap (ScanEvent.probeResult probe) ∧
      (l.foldl (scanStep probe) e).results.toolsRun =
        e.results.toolsRun + l.countP ScanEvent.isProbe ∧
      (l.foldl (scanStep probe) e).results.critical = e.results.critical +
        (l.filterMap (ScanEvent.probeResult probe)).countP
          (fun f => f.level = Level.critical) ∧
      (l.foldl (scanStep probe) e).results.high = e.results.high +
        (l.filterMap (ScanEvent.probeResult probe)).countP
          (fun f => f.level = Level.error) ∧
      (l.foldl (scanStep probe) e).results.medium = e.results.medium +
        (l.filterMap (ScanEvent.probeResult probe)).countP
          (fun f => f.level = Level.warning) ∧
      (l.foldl (scanStep probe) e).results.low = e.results.low
  | [], e, _ => by simp
  | ev :: rest, e, h => by
    have hev := h ev (List.mem_cons_self ev rest)
    have hrest := fun x hx => h x (List.mem_cons_of_mem ev hx)
    have ih := foldl_scanStep_no_summary probe rest (scanStep probe e ev) hrest
    rcases ih with ⟨i1, i2, i3, i4, i5, i6, i7, i8, i9⟩
    cases ev with
    | sectionHeader ph =>
      simp only [scanStep] at i1 i2 i3 i4 i5 i6 i7 i8 i9
      simp only [List.foldl_cons, scanStep]
      refine ⟨i1, i2, i3, ?_, ?_, ?_, ?_, ?_, i9⟩ <;>
        simp [i4, i5, i6, i7, i8, ScanEvent.probeResult, ScanEvent.isProbe,
          List.countP_cons]
    | probeUnit ph t =>
      simp only [List.foldl_cons]
      cases hf : _runToolScan probe t ph with
      | none =>
        simp only [scanStep, hf, recordProbe_none] at i1 i2 i3 i4 i5 i6 i7 i8 i9
        refine ⟨?_, ?_, ?_, ?_, ?_, ?_, ?_, ?_, ?_⟩ <;>
          simp [scanStep, hf, recordProbe_none, i1, i2, i3, i4, i5, i6, i7,
            i8, i9, ScanEvent.probeResult, ScanEvent.isProbe,
            List.countP_cons, List.filterMap_cons] <;> omega
      | some f =>
        simp only [scanStep, hf, recordProbe_some] at i1 i2 i3 i4 i5 i6 i7 i8 i9
        refine ⟨?_, ?_, ?_, ?_, ?_, ?_, ?_, ?_, ?_⟩ <;>
          simp [scanStep, hf, recordProbe_some, i1, i2, i3, i4, i5, i6, i7,
            i8, i9, ScanEvent.probeResult, ScanEvent.isProbe,
            List.countP_cons, List.filterMap_cons] <;> omega
    | summary t1 => simp [ScanEvent.isSummary] at hev

theorem execTrace_append (probe : ToolProbe) :
    ∀ (l1 l2 : List ScanEvent) (e : ScanExec),
      execTrace probe e (l1 ++ l2) =
        execTrace probe e l1 ++
          execTrace probe (l1.foldl (scanStep probe) e) l2
  | [], l2, e => rfl
  | ev :: rest, l2, e => by
    simp [execTrace, execTrace_append probe rest l2 (scanStep probe e ev)]

theorem execTrace_lastScanResults (probe : ToolProbe) :
    ∀ (l : List ScanEvent) (e : ScanExec),
      (∀ ev ∈ l, ev.isSummary = false) →
      (execTrace probe e l).map (·.lastScanResults) =
        List.replicate l.length e.lastScanResults
  | [], e, _ => rfl
  | ev :: rest, e, h => by
    have hev := h ev (List.mem_cons_self ev rest)
    have hrest := fun x hx => h x (List.mem_cons_of_mem ev hx)
    have hstep : (scanStep probe e ev).lastScanResults =
        e.lastScanResults := by
      cases ev with
      | sectionHeader ph => rfl
      | probeUnit ph t => rfl
      | summary t1 => simp [ScanEvent.isSummary] at hev
    simp [execTrace, List.replicate_succ,
      execTrace_lastScanResults probe rest (scanStep probe e ev) hrest, hstep]

/-- Translating the scheduled body events to the probe dispatch list:
the findings contributed by the body are exactly the flagged probe
results of the dispatch units, in schedule order, and the number of
probe units is the dispatch length. -/
theorem scanBodyEvents_filterMap (probe : ToolProbe)
    (installed : List String) :
    (scanBodyEventsOf installed).filterMap (ScanEvent.probeResult probe) =
      (scanDispatchOf installed).filterMap
        (fun u => _runToolScan probe u.2 u.1) := by
  unfold scanBodyEventsOf scanDispatchOf
  induction activePhasesOf installed with
  | nil => rfl
  | cons p rest ih =>
    simp only [List.flatMap_cons, List.filterMap_append, ih,
      List.filterMap_cons, List.filterMap_map]
    simp only [ScanEvent.probeResult]
    rfl

theorem scanBodyEvents_countP (installed : List String) :
    (scanBodyEventsOf installed).countP ScanEvent.isProbe =
      (scanDispatchOf installed).length := by
  unfold scanBodyEventsOf scanDispatchOf
  induction activePhasesOf installed with
  | nil => rfl
  | cons p rest ih =>
    simp [List.flatMap_cons, List.countP_append, ih, List.countP_cons,
      ScanEvent.isProbe, List.countP_map, Function.comp,
      List.countP_eq_length]

/-- Characterization of a completed scan: the final `results` object
as a function of the dispatch list and the probe. -/
theorem performComprehensiveScanOf_completed (installed : List String)
    (probe : ToolProbe) (t0 t1 : Nat)
    (h1 : installed.length ≠ 0)
    (h2 : (activePhasesOf installed).length ≠ 0) :
    performComprehensiveScanOf installed probe t0 t1 =
      .completed
        { startedAt := t0
          findings := (scanDispatchOf installed).filterMap
            (fun u => _runToolScan probe u.2 u.1)
          critical := ((scanDispatchOf installed).filterMap
            (fun u => _runToolScan probe u.2 u.1)).countP
              (fun f => f.level = Level.critical)
          high := ((scanDispatchOf installed).filterMap
            (fun u => _runToolScan probe u.2 u.1)).countP
              (fun f => f.level = Level.error)
          medium := ((scanDispatchOf installed).filterMap
            (fun u => _runToolScan probe u.2 u.1)).countP
              (fun f => f.level = Level.warning)
          low := 0
          toolsRun := (scanDispatchOf installed).length
          completedAt := some t1 } := by
  have hbody := foldl_scanStep_no_summary probe (scanBodyEventsOf installed)
    (initialScanExec t0) (scanBodyEventsOf_no_summary installed)
  rcases hbody with ⟨b1, b2, b3, b4, b5, b6, b7, b8, b9⟩
  unfold performComprehensiveScanOf
  rw [if_neg h1, if_neg h2, scanEventsOf_eq, List.foldl_append]
  simp only [List.foldl_cons, List.foldl_nil, scanStep]
  apply congrArg
  simp only [initialScanExec] at b2 b3 b4 b5 b6 b7 b8 b9
  simp [ScanResult.mk.injEq, initialScanExec, b2, b3, b4, b5, b6, b7, b8, b9,
    scanBodyEvents_filterMap, scanBodyEvents_countP]

/-- The three populated severity buckets are counts of mutually
exclusive predicates, so their sum cannot exceed the findings count. -/
theorem countP_levels_le_length :
    ∀ fs : List Finding,
      fs.countP (fun f => f.level = Level.critical) +
        fs.countP (fun f => f.level = Level.error) +
        fs.countP (fun f => f.level = Level.warning) ≤ fs.length
  | [] => by simp
  | f :: rest => by
    have ih := countP_levels_le_length rest
    simp only [List.countP_cons, List.length_cons]
    cases f.level <;> simp <;> omega

/-- The scan behaviour is a function of the installed names alone: no
initialization state, license state, or any other `localStorage` entry
is consulted. -/
theorem performComprehensiveScan_congr (s1 s2 : Store) (probe : ToolProbe)
    (t0 t1 : Nat) (h : getInstalledTools s1 = getInstalledTools s2) :
    performComprehensiveScan s1 probe t0 t1 =
      performComprehensiveScan s2 probe t0 t1 := by
  unfold performComprehensiveScan; rw [h]

theorem resultStoreTrace_congr (prev : Option ScanResult) (s1 s2 : Store)
    (probe : ToolProbe) (t0 t1 : Nat)
    (h : getInstalledTools s1 = getInstalledTools s2) :
    resultStoreTrace prev s1 probe t0 t1 =
      resultStoreTrace prev s2 probe t0 t1 := by
  unfold resultStoreTrace; rw [h]

theorem activateSmartDefense_congr (s1 s2 : Store)
    (last : Option ScanResult)
    (h : getInstalledTools s1 = getInstalledTools s2) :
    activateSmartDefense s1 last = activateSmartDefense s2 last := by
  unfold activateSmartDefense; rw [h]

/-- Keys of the probe dispatch are pairwise distinct, for any store:
the installed set is the whole catalog or empty, and the seven scan
roles partition disjoint key sets of a duplicate-free catalog. -/
theorem scanDispatch_keys_nodup (s : Store) :
    ((scanDispatchOf (getInstalledTools s)).map (fun u => u.2.key)).Nodup := by
  rw [getInstalledTools_eq]
  by_cases h : getItem s "tool_undefined_installed" = some "true"
  · rw [if_pos h]; decide
  · rw [if_neg h]; decide

/-- Dispatch units are strictly ordered by declared phase order and,
within a phase, by catalog declaration order, for any store. -/
theorem scanDispatch_pairwise (s : Store) :
    (scanDispatchOf (getInstalledTools s)).Pairwise unitOrder := by
  rw [getInstalledTools_eq]
  by_cases h : getItem s "tool_undefined_installed" = some "true"
  · rw [if_pos h]; decide
  · rw [if_neg h]; decide

/-! ## Claims -/

/-- C9: when the persisted InstallationState file is absent
(pre-install, no initialized flag on disk either), the
`read-install-state` handler fails soft — it returns a reply with a
null state, read as `initialized = false` by its consumer, instead of
raising an error (the handler is a total function: the catch branch
absorbs the read failure). -/
theorem claim_C9 (fs : KjerFS) (habsent : fs.installStateFile = none)
    (hflag : fs.initFlagExists = false) :
    readInstallState fs = { success := false, state := none } ∧
    (readInstallState fs).initializedFlag = false := by
  constructor <;>
    simp [readInstallState, ReadInstallStateResult.initializedFlag,
      habsent, hflag]

theorem claim_C9_witness :
    readInstallState { installStateFile := none, initFlagExists := false } =
      { success := false, state := none } ∧
    (readInstallState
      { installStateFile := none, initFlagExists := false }).initializedFlag
        = false :=
  claim_C9 { installStateFile := none, initFlagExists := false } rfl rfl

/-- C10: the `getInstalledTools` in effect reads one marker key per
tool, `tool_` + `tool.id` + `_installed`; no catalog entry defines an
`id`, so every tool maps to the single key `tool_undefined_installed`
and the catalog reads as uniformly installed or uniformly not
installed; and the writes of `setToolInstalled` go to the separate
`installedTools` key, which this reader never consults. -/
theorem claim_C10 :
    (∀ t ∈ TOOLS_DATABASE,
        t.id = none ∧ installedStorageKey t = "tool_undefined_installed") ∧
    (∀ s : Store,
        getInstalledTools s =
          if getItem s "tool_undefined_installed" = some "true" then
            TOOLS_DATABASE.map (·.name)
          else []) ∧
    (∀ (s : Store) (toolName : String) (b : Bool),
        (∃ v, setToolInstalled s toolName b = setItem s "installedTools" v) ∧
        getInstalledTools (setToolInstalled s toolName b) =
          getInstalledTools s) := by
  refine ⟨?_, getInstalledTools_eq, ?_⟩
  · intro t ht
    fin_cases ht <;> exact ⟨rfl, rfl⟩
  · intro s toolName b
    constructor
    · exact ⟨_, rfl⟩
    · exact getInstalledTools_setItem_ne s "installedTools" _ (by decide)

theorem claim_C10_witness :
    ((Tool.mk "windows-defender" "Windows Defender" none).id = none ∧
      installedStorageKey (Tool.mk "windows-defender" "Windows Defender" none)
        = "tool_undefined_installed") ∧
    getInstalledTools sAllInstalled = TOOLS_DATABASE.map (·.name) ∧
    getInstalledTools (setToolInstalled sAllInstalled "ClamAV" false) =
      getInstalledTools sAllInstalled := by
  refine ⟨claim_C10.1 (Tool.mk "windows-defender" "Windows Defender" none)
    (by decide), ?_, (claim_C10.2.2 sAllInstalled "ClamAV" false).2⟩
  rw [claim_C10.2.1 sAllInstalled]; decide

/-- C7: a scan invoked with an empty InstalledSet aborts with the
no-tools error before any phase is scheduled and leaves the Result
Store exactly as it was. -/
theorem claim_C7 (s : Store) (probe : ToolProbe) (t0 t1 : Nat)
    (prev : Option ScanResult) (h : getInstalledTools s = []) :
    performComprehensiveScan s probe t0 t1 = .noTools ∧
    resultStoreTrace prev s probe t0 t1 = [prev] := by
  constructor <;>
    simp [performComprehensiveScan, performComprehensiveScanOf,
      resultStoreTrace, h]

theorem claim_C7_witness :
    performComprehensiveScan [] probeQuiet 0 1 = .noTools ∧
    resultStoreTrace (some rPrevDistinct) [] probeQuiet 0 1 =
      [some rPrevDistinct] :=
  claim_C7 [] probeQuiet 0 1 (some rPrevDistinct) rfl

/-- C4: `activateKjer` never changes the `kterInitialized` flag — on
success it persists the license key, type and the activated marker and
at most *schedules* initialization (the fresh-activation branch) or
renders the upgrade prompt; the flag is set only by the separate
`initializeKjer` transition. -/
theorem activateKjer_eq (s : Store) (input : String)
    (validate : String → String → ActivationResult) :
    activateKjer s input validate = (s, .invalidFormat) ∨
    (∃ m, activateKjer s input validate = (s, .failed m)) ∨
    (∃ lt,
      activateKjer s input validate =
        (setItem (setItem (setItem s "kterLicenseKey"
            (jsToUpper (jsTrim input))) "kterLicenseType" lt)
          "kterActivated" "true", .scheduledInitialize) ∨
      ∃ v, activateKjer s input validate =
          (setItem (setItem (setItem (setItem s "kterLicenseKey"
              (jsToUpper (jsTrim input))) "kterLicenseType" lt)
            "kterActivated" "true") "kterVersion" v,
            .scheduledInitialize) ∨
        activateKjer s input validate =
          (setItem (setItem (setItem (setItem s "kterLicenseKey"
              (jsToUpper (jsTrim input))) "kterLicenseType" lt)
            "kterActivated" "true") "kterVersion" v,
            .upgradePrompt v)) := by
  simp only [activateKjer]
  repeat' split
  all_goals first
  | exact Or.inl rfl
  | exact Or.inr (Or.inl ⟨_, rfl⟩)
  | exact Or.inr (Or.inr ⟨_, Or.inl rfl⟩)
  | exact Or.inr (Or.inr ⟨_, Or.inr ⟨_, Or.inl rfl⟩⟩)
  | exact Or.inr (Or.inr ⟨_, Or.inr ⟨_, Or.inr rfl⟩⟩)

theorem claim_C4 :
    (∀ (s : Store) (input : String)
        (validate : String → String → ActivationResult),
        getItem (activateKjer s input validate).1 "kterInitialized" =
          getItem s "kterInitialized") ∧
    (∀ (s : Store) (input : String)
        (validate : String → String → ActivationResult),
        ((activateKjer s input validate).2 =
            ActivationOutcome.scheduledInitialize ∨
          ∃ v, (activateKjer s input validate).2 =
            ActivationOutcome.upgradePrompt v) →
        getItem (activateKjer s input validate).1 "kterLicenseKey" =
            some (jsToUpper (jsTrim input)) ∧
        getItem (activateKjer s input validate).1 "kterActivated" =
            some "true") ∧
    (∀ (s : Store) (detectedOS nowIso : String),
        getItem (initializeKjer s detectedOS nowIso) "kterInitialized" =
          some "true") := by
  refine ⟨?_, ?_, ?_⟩
  · intro s input validate
    rcases activateKjer_eq s input validate with h | ⟨m, h⟩ |
      ⟨lt, h | ⟨v, h | h⟩⟩ <;> rw [h] <;> simp [setItem, getItem]
  · intro s input validate hout
    rcases activateKjer_eq s input validate with h | ⟨m, h⟩ |
      ⟨lt, h | ⟨v, h | h⟩⟩ <;> rw [h] at hout ⊢ <;>
      first
      | (exfalso; (rcases hout with hout | ⟨w, hout⟩ <;> simp at hout); done)
      | (constructor <;> simp [setItem, getItem])
  · intro s detectedOS nowIso
    simp only [initializeKjer]
    split <;> simp [setItem, getItem]

theorem claim_C4_witness :
    getItem (activateKjer [("kterInitialized", "true")]
        "KJER-ENT-ABCD-EFGH-1234X"
        (fun _ _ => { success := true, license_version := some "1.1.0" })).1
        "kterInitialized" = some "true" ∧
    (activateKjer [("kterInitialized", "true")] "KJER-ENT-ABCD-EFGH-1234X"
        (fun _ _ => { success := true, license_version := some "1.1.0" })).2 =
      ActivationOutcome.upgradePrompt "1.1.0" ∧
    getItem (activateKjer [("kterInitialized", "true")]
        "KJER-ENT-ABCD-EFGH-1234X"
        (fun _ _ => { success := true, license_version := some "1.1.0" })).1
        "kterLicenseKey" = some "KJER-ENT-ABCD-EFGH-1234X" ∧
    getItem (initializeKjer [] "linux" "2026-10-11") "kterInitialized" =
      some "true" := by
  have h1 := claim_C4.1 [("kterInitialized", "true")]
    "KJER-ENT-ABCD-EFGH-1234X"
    (fun _ _ => { success := true, license_version := some "1.1.0" })
  have hout : (activateKjer [("kterInitialized", "true")]
      "KJER-ENT-ABCD-EFGH-1234X"
      (fun _ _ => { success := true, license_version := some "1.1.0" })).2 =
      ActivationOutcome.upgradePrompt "1.1.0" := by decide
  have h2 := claim_C4.2.1 [("kterInitialized", "true")]
    "KJER-ENT-ABCD-EFGH-1234X"
    (fun _ _ => { success := true, license_version := some "1.1.0" })
    (Or.inr ⟨"1.1.0", hout⟩)
  have h3 := claim_C4.2.2 [] "linux" "2026-10-11"
  refine ⟨?_, hout, ?_, h3⟩
  · rw [h1]; decide
  · rw [h2.1]; decide

theorem getItem_setItem (s : Store) (k v k2 : String) :
    getItem (setItem s k v) k2 = if k = k2 then some v else getItem s k2 := by
  simp [getItem, setItem]

/-- C1 counterexample: with tools installed but `kterInitialized`
absent (uninitialized), the scan does not fail fast with a
not-initialized error — it runs to completion and mutates the Result
Store (the trace differs from the untouched-store trace). -/
theorem claim_C1_counterexample :
    getItem sAllInstalled "kterInitialized" = none ∧
    performComprehensiveScan sAllInstalled probeQuiet 0 1 =
      ScanOutcome.completed rQuietAll ∧
    resultStoreTrace (some rPrevDistinct) sAllInstalled probeQuiet 0 1 ≠
      [some rPrevDistinct] := by
  refine ⟨rfl, by decide, by decide⟩

/-- C1 (amended): the renderer's tool-management operations perform no
INITIALIZED check at all.  Scan, defend and install behave as functions
of the InstalledSet (and external backend reply) alone — in particular
they are insensitive to the `kterInitialized` flag — and installTool
never touches that flag.  The only initialization gating is in the UI
layer: `createToolCard` renders the install button disabled whenever
Kjer is not initialized. -/
theorem claim_C1 :
    (∀ (s1 s2 : Store) (probe : ToolProbe) (t0 t1 : Nat),
        getInstalledTools s1 = getInstalledTools s2 →
        performComprehensiveScan s1 probe t0 t1 =
          performComprehensiveScan s2 probe t0 t1) ∧
    (∀ (prev : Option ScanResult) (s1 s2 : Store) (probe : ToolProbe)
        (t0 t1 : Nat),
        getInstalledTools s1 = getInstalledTools s2 →
        resultStoreTrace prev s1 probe t0 t1 =
          resultStoreTrace prev s2 probe t0 t1) ∧
    (∀ (s1 s2 : Store) (last : Option ScanResult),
        getInstalledTools s1 = getInstalledTools s2 →
        activateSmartDefense s1 last = activateSmartDefense s2 last) ∧
    (∀ (s : Store) (toolName : String) (res : BackendResult),
        getItem (installTool s toolName res) "kterInitialized" =
          getItem s "kterInitialized" ∧
        getInstalledTools (installTool s toolName res) =
          getInstalledTools s) ∧
    (∀ (s : Store) (v toolName : String) (res : BackendResult)
        (k : String), k ≠ "kterInitialized" →
        getItem (installTool (setItem s "kterInitialized" v) toolName res) k
          = getItem (installTool s toolName res) k) ∧
    (∀ isIncompatible : Bool,
        createToolCardButtonDisabled isIncompatible false = true) := by
  refine ⟨performComprehensiveScan_congr, resultStoreTrace_congr,
    activateSmartDefense_congr, ?_, ?_, ?_⟩
  · intro s toolName res
    constructor
    · simp only [installTool]
      split <;> split <;> rfl
    · simp only [installTool]
      split <;> split <;> rfl
  · intro s v toolName res k hk
    have hmem : getInstalledTools (setItem s "kterInitialized" v) =
        getInstalledTools s :=
      getInstalledTools_setItem_ne s "kterInitialized" v (by decide)
    simp only [installTool]
    rw [hmem]
    split <;> split <;>
      simp [setToolInstalled, hmem, getItem_setItem, Ne.symm hk]
  · intro isIncompatible
    simp [createToolCardButtonDisabled]

theorem claim_C1_witness :
    performComprehensiveScan (("darkMode", "true") :: sAllInstalled)
        probeQuiet 0 1 =
      performComprehensiveScan sAllInstalled probeQuiet 0 1 ∧
    getItem (installTool sAllInstalled "ClamAV"
        { success := true }) "kterInitialized" =
      getItem sAllInstalled "kterInitialized" ∧
    getItem (installTool (setItem sAllInstalled "kterInitialized" "true")
        "ClamAV" { success := true }) "installedTools" =
      getItem (installTool sAllInstalled "ClamAV"
        { success := true }) "installedTools" ∧
    createToolCardButtonDisabled false false = true :=
  ⟨claim_C1.1 (("darkMode", "true") :: sAllInstalled) sAllInstalled
      probeQuiet 0 1 (by decide),
    (claim_C1.2.2.2.1 sAllInstalled "ClamAV" { success := true }).1,
    claim_C1.2.2.2.2.1 sAllInstalled "true" "ClamAV" { success := true }
      "installedTools" (by decide),
    claim_C1.2.2.2.2.2 false⟩

/-- C2 counterexample: with a complete previous ScanResult in the
store, a reader observing the store right after the scan starts (the
second observation point of the trace) sees `null` — which is neither
the previous complete result nor the newly finalized one: line 2905
clears the store at scan start, before the last scheduled unit. -/
theorem claim_C2_counterexample :
    (resultStoreTrace (some rPrevDistinct) sAllInstalled probeQuiet 0 1).get?
        1 = some none ∧
    performComprehensiveScan sAllInstalled probeQuiet 0 1 =
      ScanOutcome.completed rQuietAll ∧
    (none : Option ScanResult) ≠ some rPrevDistinct ∧
    (none : Option ScanResult) ≠ some rQuietAll := by
  refine ⟨by decide, by decide, by decide, by decide⟩

/-- C2 (amended): no reader ever observes a partially-finalized
ScanResult — but not because the previous result stays visible: the
store is cleared to null by the synchronous scan body, holds null at
every observation point while the scheduled units run, and the complete
finalized result is published by a single assignment in the last
scheduled unit.  The whole observable trace is: previous value, then
null for every mid-scan point, then the finalized result. -/
theorem claim_C2 (prev : Option ScanResult) (s : Store)
    (probe : ToolProbe) (t0 t1 : Nat) (r : ScanResult)
    (h : performComprehensiveScan s probe t0 t1 = .completed r) :
    resultStoreTrace prev s probe t0 t1 =
      prev ::
        (List.replicate (scanEventsOf (getInstalledTools s) t1).length none
          ++ [some r]) := by
  have h1 : ¬ (getInstalledTools s).length = 0 := by
    intro h0
    simp [performComprehensiveScan, performComprehensiveScanOf, h0] at h
  have h2 : ¬ (activePhasesOf (getInstalledTools s)).length = 0 := by
    intro h0
    simp [performComprehensiveScan, performComprehensiveScanOf, h0, h1] at h
  have hr : r = ((scanEventsOf (getInstalledTools s) t1).foldl
      (scanStep probe) (initialScanExec t0)).results := by
    simp [performComprehensiveScan, performComprehensiveScanOf, h1, h2] at h
    exact h.symm
  simp only [resultStoreTrace]
  rw [if_neg h1, if_neg h2, scanEventsOf_eq, execTrace_append,
    List.map_append,
    execTrace_lastScanResults probe _ _ (scanBodyEventsOf_no_summary _)]
  rw [scanEventsOf_eq, List.foldl_append] at hr
  simp [execTrace, scanStep, hr, List.replicate_succ, initialScanExec]

theorem claim_C2_witness :
    resultStoreTrace (some rPrevDistinct) sAllInstalled probeQuiet 0 1 =
      some rPrevDistinct ::
        (List.replicate
          (scanEventsOf (getInstalledTools sAllInstalled) 1).length none
          ++ [some rQuietAll]) :=
  claim_C2 (some rPrevDistinct) sAllInstalled probeQuiet 0 1 rQuietAll
    (by decide)

/-- A completed scan determines every field of its result. -/
theorem scan_completed_fields (s : Store) (probe : ToolProbe)
    (t0 t1 : Nat) (r : ScanResult)
    (h : performComprehensiveScan s probe t0 t1 = .completed r) :
    r = { startedAt := t0
          findings := (scanDispatchOf (getInstalledTools s)).filterMap
            (fun u => _runToolScan probe u.2 u.1)
          critical := ((scanDispatchOf (getInstalledTools s)).filterMap
            (fun u => _runToolScan probe u.2 u.1)).countP
              (fun f => f.level = Level.critical)
          high := ((scanDispatchOf (getInstalledTools s)).filterMap
            (fun u => _runToolScan probe u.2 u.1)).countP
              (fun f => f.level = Level.error)
          medium := ((scanDispatchOf (getInstalledTools s)).filterMap
            (fun u => _runToolScan probe u.2 u.1)).countP
              (fun f => f.level = Level.warning)
          low := 0
          toolsRun := (scanDispatchOf (getInstalledTools s)).length
          completedAt := some t1 } := by
  have h1 : ¬ (getInstalledTools s).length = 0 := by
    intro h0
    simp [performComprehensiveScan, performComprehensiveScanOf, h0] at h
  have h2 : ¬ (activePhasesOf (getInstalledTools s)).length = 0 := by
    intro h0
    simp [performComprehensiveScan, performComprehensiveScanOf, h0, h1] at h
  have hc := performComprehensiveScanOf_completed (getInstalledTools s)
    probe t0 t1 h1 h2
  unfold performComprehensiveScan at h
  rw [hc] at h
  simpa [ScanOutcome.completed.injEq] using h.symm

/-- C5 counterexample: a probe outcome flagged at level info is
appended to the findings but increments **no** severity bucket — the
low bucket does not move (the constructed finding record lacks the
`flagged` property the test at line 2936 reads), so the claimed
info-and-flagged-to-low bucketing fails. -/
theorem claim_C5_counterexample :
    performComprehensiveScan sAllInstalled probeInfoClamav 0 1 =
      ScanOutcome.completed rInfoClamav ∧
    rInfoClamav.findings.length = 1 ∧
    rInfoClamav.findings.map (·.level) = [Level.info] ∧
    rInfoClamav.low = 0 ∧
    rInfoClamav.critical + rInfoClamav.high + rInfoClamav.medium +
      rInfoClamav.low = 0 := by
  refine ⟨by decide, rfl, rfl, rfl, rfl⟩

/-- C5 (amended): for every completed ScanResult, `toolsRun` is the
number of distinct tools dispatched (dispatch keys are pairwise
distinct), the critical/high/medium buckets count exactly the appended
findings of level critical/error/warning respectively, the low bucket
is always 0 (appended info-level findings increment no bucket, because
the finding record drops the flagged marker), and the bucket sum never
exceeds the findings count. -/
theorem claim_C5 (s : Store) (probe : ToolProbe) (t0 t1 : Nat)
    (r : ScanResult)
    (h : performComprehensiveScan s probe t0 t1 = .completed r) :
    r.toolsRun = (scanDispatchOf (getInstalledTools s)).length ∧
    ((scanDispatchOf (getInstalledTools s)).map (fun u => u.2.key)).Nodup ∧
    r.critical = r.findings.countP (fun f => f.level = Level.critical) ∧
    r.high = r.findings.countP (fun f => f.level = Level.error) ∧
    r.medium = r.findings.countP (fun f => f.level = Level.warning) ∧
    r.low = 0 ∧
    r.critical + r.high + r.medium + r.low ≤ r.findings.length := by
  rcases scan_completed_fields s probe t0 t1 r h with rfl
  refine ⟨rfl, scanDispatch_keys_nodup s, rfl, rfl, rfl, rfl, ?_⟩
  simpa using countP_levels_le_length _

theorem claim_C5_witness :
    rScenarioB.toolsRun =
      (scanDispatchOf (getInstalledTools sAllInstalled)).length ∧
    rScenarioB.critical =
      rScenarioB.findings.countP (fun f => f.level = Level.critical) ∧
    rScenarioB.critical + rScenarioB.high + rScenarioB.medium +
      rScenarioB.low ≤ rScenarioB.findings.length := by
  have h := claim_C5 sAllInstalled probeCriticalClamav 0 1 rScenarioB
    (by decide)
  exact ⟨h.1, h.2.2.1, h.2.2.2.2.2.2⟩

/-- C6: the computed posture follows the spec's conditional exactly,
with "the ScanResult contained at least one critical finding" holding
iff some finding in it is critical (for scan-produced results the
critical counter counts those findings). -/
theorem claim_C6 (s : Store) (probe : ToolProbe) (t0 t1 : Nat)
    (r : ScanResult) (installed2 : List String)
    (summary : DefenseSummary)
    (hscan : performComprehensiveScan s probe t0 t1 = .completed r)
    (hdef : activateSmartDefenseOf installed2 (some r) = .ran summary) :
    summary.posture =
      if summary.actionsTotal = 0 then "NO DEFENSIVE TOOLS INSTALLED"
      else if r.findings.length = 0 then "HARDENED (preventive)"
      else if ∃ f ∈ r.findings, f.level = Level.critical then
        "INCIDENT RESPONSE ACTIVE"
      else "HARDENED" := by
  rcases scan_completed_fields s probe t0 t1 r hscan with rfl
  simp only [activateSmartDefenseOf] at hdef
  by_cases hlen : installed2.length = 0
  · simp [hlen] at hdef
  · rw [if_neg hlen] at hdef
    simp only [DefendOutcome.ran.injEq] at hdef
    rw [← hdef]
    simp only [hasScanDataOf, findingsUsed, Option.isSome_some]
    by_cases hcrit :
        0 < ((scanDispatchOf (getInstalledTools s)).filterMap
          (fun u => _runToolScan probe u.2 u.1)).countP
            (fun f => f.level = Level.critical)
    · have hex : ∃ f ∈ (scanDispatchOf (getInstalledTools s)).filterMap
          (fun u => _runToolScan probe u.2 u.1),
          f.level = Level.critical := by
        simpa using List.countP_pos_iff.mp hcrit
      rw [if_pos hex]
      simp [hcrit]
    · have hex : ¬ ∃ f ∈ (scanDispatchOf (getInstalledTools s)).filterMap
          (fun u => _runToolScan probe u.2 u.1),
          f.level = Level.critical := by
        intro hex
        exact hcrit (List.countP_pos_iff.mpr (by simpa using hex))
      rw [if_neg hex]
      simp [hcrit]

theorem claim_C6_witness :
    performComprehensiveScan sAllInstalled probeCriticalClamav 0 1 =
      ScanOutcome.completed rScenarioB ∧
    activateSmartDefenseOf (getInstalledTools sAllInstalled)
      (some rScenarioB) = DefendOutcome.ran summaryScenarioC ∧
    summaryScenarioC.posture = "INCIDENT RESPONSE ACTIVE" := by
  refine ⟨by decide, by decide, ?_⟩
  have h := claim_C6 sAllInstalled probeCriticalClamav 0 1 rScenarioB
    (getInstalledTools sAllInstalled) summaryScenarioC (by decide) (by decide)
  rw [h]
  decide

/-- C3 counterexample: a warning-level Volatility (`memory_scan`)
finding — an outcome the in-repo simulation itself produces — engages
Malware Containment, although the claimed trigger (severity critical or
error on `malware_scan`/`memory_scan` findings) does not hold: the code
tests memory findings against severities critical-or-warning, not
critical-or-error. -/
theorem claim_C3_counterexample :
    performComprehensiveScan sAllInstalled probeWarnVolatility 0 1 =
      ScanOutcome.completed rVolWarn ∧
    0 < (avToolsOf (getInstalledTools sAllInstalled)).length ∧
    specMalwareContainmentTrigger rVolWarn.findings = false ∧
    malwareContainmentEngaged (getInstalledTools sAllInstalled)
      (some rVolWarn) = true := by
  refine ⟨by decide, by decide, by decide, by decide⟩

/-- C3 (amended): for a ScanResult with scan data present, the Defense
Planner engages Malware Containment iff at least one `av_remediate`
tool is installed and some finding is from a `malware_scan`-role tool
at level critical or error, **or** from the `memory_scan`-role tool at
level critical or warning.  In particular a single critical
`malware_scan` finding engages the phase with no broadMode. -/
theorem claim_C3 (installed : List String) (r : ScanResult)
    (hdata : r.completedAt.isSome = true) :
    malwareContainmentEngaged installed (some r) = true ↔
      0 < (avToolsOf installed).length ∧
        ∃ f ∈ r.findings,
          (f.key ∈ roleKeysOf "malware_scan" ∧
            (f.level = Level.critical ∨ f.level = Level.error)) ∨
          (f.key ∈ roleKeysOf "memory_scan" ∧
            (f.level = Level.critical ∨ f.level = Level.warning)) := by
  have hfu : findingsUsed (some r) = r.findings := by
    simp [findingsUsed, hdata]
  have hsd : hasScanDataOf (some r) = true := hdata
  simp only [malwareContainmentEngaged, defensePhasesOf, hfu, hsd]
  simp [hasMalware, hasMemoryThreat, List.any_eq_true, roleKeysOf,
    TOOL_ROLES, and_assoc]
  intro hav
  constructor
  · rintro (⟨f, hf, hA⟩ | ⟨f, hf, hB⟩)
    exacts [⟨f, hf, Or.inl hA⟩, ⟨f, hf, Or.inr hB⟩]
  · rintro ⟨f, hf, hA | hB⟩
    exacts [Or.inl ⟨f, hf, hA⟩, Or.inr ⟨f, hf, hB⟩]

theorem claim_C3_witness :
    malwareContainmentEngaged (getInstalledTools sAllInstalled)
      (some rScenarioB) = true :=
  (claim_C3 (getInstalledTools sAllInstalled) rScenarioB (by decide)).mpr
    (by decide)

/-- A finding contributed by a dispatch unit carries that unit's phase
name and tool key. -/
theorem _runToolScan_mem (probe : ToolProbe) (t : Tool) (ph : String)
    (b : Finding) (hb : b ∈ _runToolScan probe t ph) :
    b.phase = ph ∧ b.key = t.key := by
  simp only [_runToolScan] at hb
  split at hb
  · simp only [Option.mem_def, Option.some.injEq] at hb
    subst hb
    exact ⟨rfl, rfl⟩
  · simp at hb

/-- C8: for a fixed InstalledSet the scan is deterministic — two stores
with the same installed names produce identical outcomes for the same
deterministic probe — and the findings of every completed scan are
strictly ordered by declared phase order and, within a phase, by
catalog (registry) declaration order. -/
theorem claim_C8 :
    (∀ (s1 s2 : Store) (probe : ToolProbe) (t0 t1 : Nat),
        getInstalledTools s1 = getInstalledTools s2 →
        performComprehensiveScan s1 probe t0 t1 =
          performComprehensiveScan s2 probe t0 t1) ∧
    (∀ (s : Store) (probe : ToolProbe) (t0 t1 : Nat) (r : ScanResult),
        performComprehensiveScan s probe t0 t1 = .completed r →
        r.findings.Pairwise findingOrder) := by
  refine ⟨performComprehensiveScan_congr, ?_⟩
  intro s probe t0 t1 r h
  rcases scan_completed_fields s probe t0 t1 r h with rfl
  simp only
  rw [List.pairwise_filterMap]
  refine (scanDispatch_pairwise s).imp ?_
  intro u v huv
  intro b hb c hc
  obtain ⟨hbp, hbk⟩ := _runToolScan_mem probe u.2 u.1 b hb
  obtain ⟨hcp, hck⟩ := _runToolScan_mem probe v.2 v.1 c hc
  unfold findingOrder
  rw [hbp, hbk, hcp, hck]
  exact huv

theorem claim_C8_witness :
    performComprehensiveScan (("darkMode", "false") :: sAllInstalled)
        probeCriticalClamav 0 1 =
      performComprehensiveScan sAllInstalled probeCriticalClamav 0 1 ∧
    rScenarioB.findings.Pairwise findingOrder :=
  ⟨claim_C8.1 (("darkMode", "false") :: sAllInstalled) sAllInstalled
      probeCriticalClamav 0 1 (by decide),
    claim_C8.2 sAllInstalled probeCriticalClamav 0 1 rScenarioB (by decide)⟩

end Kjer
